import Mathlib

/-!
Shallow embedding of the checkers rules engine implemented in
`Checkers2.0.py` (classes `CheckerSquare` and `CheckersGame`), together with
theorems settling the specification claims about it.

Modelling conventions:
* A `CheckerSquare` keeps two game-relevant attributes, `player` and
  `isKing`.  `clear_checker` resets only `player` (the source leaves
  `self.isKing` untouched), `set_checker` overwrites both.  Colors and
  canvas drawing are presentation-only and are not modelled.
* The board is the 8×8 grid `squares`, modelled as a list of 8 rows of 8
  squares, indexed by `(row, column)` integers exactly as in the source.
* Tk event binding is modelled by the flag `squaresBound`: clicks reach
  `on_click` only while the squares are bound (`no_click` unbinds them all
  when the game ends).
* `random.choice(lst)` is modelled by `randomChoice lst pick` for an
  arbitrary `pick : Nat`; every element of a non-empty list is picked by
  some `pick`, and the empty list (an `IndexError` in Python) yields `none`.
* `self.after(...)` scheduling is modelled by the step relation `Step`:
  a computer step may fire whenever `turn` equals `computerPlayer`.
-/

namespace Checkers

/-- One board square: which player's piece is on it (`none` = empty) and the
king flag.  Mirrors the `player`/`isKing` attributes of `CheckerSquare`. -/
structure Square where
  player : Option Nat
  isKing : Bool
deriving DecidableEq, Repr

def emptySquare : Square := ⟨none, false⟩

/-- The 8×8 grid of squares, row-major, as in `self.squares`. -/
abbrev Board := List (List Square)

def boardWF (b : Board) : Prop := b.length = 8 ∧ ∀ row ∈ b, row.length = 8

instance : DecidablePred boardWF := fun b => by
  unfold boardWF; infer_instance

/-- Read the square at integer coordinates `(r, c)`; all source accesses are
made with in-range coordinates, out-of-range reads return an empty square. -/
def bGet (b : Board) (r c : Int) : Square :=
  if 0 ≤ r ∧ r < 8 ∧ 0 ≤ c ∧ c < 8 then
    (b.getD r.toNat []).getD c.toNat emptySquare
  else emptySquare

/-- Overwrite the square at `(r, c)`. -/
def bSet (b : Board) (r c : Int) (s : Square) : Board :=
  if 0 ≤ r ∧ r < 8 ∧ 0 ≤ c ∧ c < 8 then
    b.set r.toNat ((b.getD r.toNat []).set c.toNat s)
  else b

/-- `CheckerSquare.clear_checker`: removes the piece; the king flag of the
widget is left as it was (the source only sets `self.player = None`). -/
def clearChecker (b : Board) (r c : Int) : Board :=
  bSet b r c { bGet b r c with player := none }

/-- `CheckerSquare.set_checker(player, color, isKing)` (color is display-only). -/
def setChecker (b : Board) (r c : Int) (p : Nat) (k : Bool) : Board :=
  bSet b r c ⟨some p, k⟩

/-- Game state: the attributes of `CheckersGame` that carry game logic. -/
structure Game where
  board : Board
  turn : Nat
  pieceSelected : Option (Int × Int)
  jumpInProgress : Bool
  computerPlayer : Int
  message : String
  squaresBound : Bool
deriving DecidableEq, Repr

/-- `self.direction = [-1, 1]`, indexed by the player number. -/
def direction (t : Nat) : Int := if t = 0 then -1 else 1

/-- `CheckersGame.piece_can_jump(row, col, getList=True)`. -/
def piece_can_jump_list (g : Game) (row col : Int) : List (Int × Int) :=
  let d := direction g.turn
  let l : List (Int × Int) := []
  let l := if 0 ≤ row + 2*d ∧ row + 2*d < 8 ∧ 0 ≤ col + 2 ∧ col + 2 < 8 ∧
      (bGet g.board (row + d) (col + 1)).player = some (1 - g.turn) ∧
      (bGet g.board (row + 2*d) (col + 2)).player = none then
    l ++ [(row + 2*d, col + 2)] else l
  let l := if 0 ≤ row + 2*d ∧ row + 2*d < 8 ∧ 0 ≤ col - 2 ∧ col - 2 < 8 ∧
      (bGet g.board (row + d) (col - 1)).player = some (1 - g.turn) ∧
      (bGet g.board (row + 2*d) (col - 2)).player = none then
    l ++ [(row + 2*d, col - 2)] else l
  if (bGet g.board row col).isKing then
    let l := if 0 ≤ row - 2*d ∧ row - 2*d < 8 ∧ 0 ≤ col + 2 ∧ col + 2 < 8 ∧
        (bGet g.board (row - d) (col + 1)).player = some (1 - g.turn) ∧
        (bGet g.board (row - 2*d) (col + 2)).player = none then
      l ++ [(row - 2*d, col + 2)] else l
    if 0 ≤ row - 2*d ∧ row - 2*d < 8 ∧ 0 ≤ col - 2 ∧ col - 2 < 8 ∧
        (bGet g.board (row - d) (col - 1)).player = some (1 - g.turn) ∧
        (bGet g.board (row - 2*d) (col - 2)).player = none then
      l ++ [(row - 2*d, col - 2)] else l
  else l

/-- `CheckersGame.piece_can_jump(row, col)` (boolean form). -/
def piece_can_jump (g : Game) (row col : Int) : Bool :=
  0 < (piece_can_jump_list g row col).length

/-- `CheckersGame.player_can_jump()`: scans the dark squares for a piece of
the current player that can jump. -/
def player_can_jump (g : Game) : Bool :=
  (List.range 8).any fun row => (List.range 8).any fun col =>
    decide ((row + col) % 2 = 1) &&
    decide ((bGet g.board (row : Int) (col : Int)).player = some g.turn) &&
    piece_can_jump g (row : Int) (col : Int)

/-- `CheckersGame.piece_can_move(row, col, getList=True)`. -/
def piece_can_move_list (g : Game) (row col : Int) : List (Int × Int) :=
  let d := direction g.turn
  let l : List (Int × Int) := []
  let l := if 0 ≤ row + d ∧ row + d < 8 ∧ 0 ≤ col + 1 ∧ col + 1 < 8 ∧
      (bGet g.board (row + d) (col + 1)).player = none then
    l ++ [(row + d, col + 1)] else l
  let l := if 0 ≤ row + d ∧ row + d < 8 ∧ 0 ≤ col - 1 ∧ col - 1 < 8 ∧
      (bGet g.board (row + d) (col - 1)).player = none then
    l ++ [(row + d, col - 1)] else l
  if (bGet g.board row col).isKing then
    let l := if 0 ≤ row - d ∧ row - d < 8 ∧ 0 ≤ col + 1 ∧ col + 1 < 8 ∧
        (bGet g.board (row - d) (col + 1)).player = none then
      l ++ [(row - d, col + 1)] else l
    if 0 ≤ row - d ∧ row - d < 8 ∧ 0 ≤ col - 1 ∧ col - 1 < 8 ∧
        (bGet g.board (row - d) (col - 1)).player = none then
      l ++ [(row - d, col - 1)] else l
  else l

/-- `CheckersGame.piece_can_move(row, col)` (boolean form). -/
def piece_can_move (g : Game) (row col : Int) : Bool :=
  0 < (piece_can_move_list g row col).length

/-- `CheckersGame.player_can_move()`. -/
def player_can_move (g : Game) : Bool :=
  (List.range 8).any fun row => (List.range 8).any fun col =>
    decide ((row + col) % 2 = 1) &&
    decide ((bGet g.board (row : Int) (col : Int)).player = some g.turn) &&
    piece_can_move g (row : Int) (col : Int)

/-- `CheckersGame.move(oldr, oldc, newr, newc)` acting on the board: the
piece keeps its king status, becoming a king when `newr == 7 * self.turn`. -/
def moveBoard (b : Board) (turn : Nat) (oldr oldc newr newc : Int) : Board :=
  let isK := (bGet b oldr oldc).isKing
  let isK := if newr = 7 * (turn : Int) then true else isK
  setChecker (clearChecker b oldr oldc) newr newc turn isK

/-- `CheckersGame.move` on the game state. -/
def move (g : Game) (oldr oldc newr newc : Int) : Game :=
  { g with board := moveBoard g.board g.turn oldr oldc newr newc }

/-- `CheckersGame.jump(oldr, oldc, newr, newc)` acting on the board: a move
followed by clearing the jumped-over square. -/
def jumpBoard (b : Board) (turn : Nat) (oldr oldc newr newc : Int) : Board :=
  clearChecker (moveBoard b turn oldr oldc newr newc)
    ((oldr + newr) / 2) ((oldc + newc) / 2)

/-- `CheckersGame.jump` on the game state. -/
def jump (g : Game) (oldr oldc newr newc : Int) : Game :=
  { g with board := jumpBoard g.board g.turn oldr oldc newr newc }

/-- The first half of `CheckersGame.next_turn`: switch to the other player
and reset the per-turn attributes. -/
def advanceFlip (g : Game) : Game :=
  { g with turn := 1 - g.turn, message := "", pieceSelected := none,
           jumpInProgress := false }

/-- `self.colors[t].title()` for the two player colors `['red','white']`. -/
def colorTitle (t : Nat) : String := if t = 0 then "Red" else "White"

/-- `CheckersGame.next_turn`: switch players; if the new player has no legal
move and no legal jump the previous player wins, the squares are unbound and
the win is announced. -/
def next_turn (g : Game) : Game :=
  let g1 := advanceFlip g
  if ¬ player_can_move g1 ∧ ¬ player_can_jump g1 then
    { g1 with turn := 1 - g1.turn,
              message := colorTitle (1 - g1.turn) ++ " wins!",
              squaresBound := false }
  else g1

/-- The counting loop inside `CheckersGame.jumpable_pieces`: scans all 64
squares (no parity filter in the source here) for pieces of the current
player that can jump. -/
def countJumpable (g : Game) : Nat :=
  (List.range 8).foldl (fun acc row => (List.range 8).foldl (fun acc2 col =>
    if (bGet g.board (row : Int) (col : Int)).player = some g.turn ∧
        piece_can_jump g (row : Int) (col : Int) = true then
      acc2 + 1
    else acc2) acc) 0

/-- `CheckersGame.jumpable_pieces(oldrow, oldcol, newrow, newcol)`: the
Python guard is `if oldrow:`, so the speculative move is applied (and later
reverted) only when `oldrow` is truthy, i.e. nonzero.  The count is taken
with the turn temporarily flipped to the opponent.  Returns the count
together with the game as left behind by the call (the board is mutated and
then reverted in place). -/
def jumpable_pieces (g : Game) (oldrow oldcol newrow newcol : Int) :
    Nat × Game :=
  let g1 := if oldrow ≠ 0 then move g oldrow oldcol newrow newcol else g
  let n := countJumpable { g1 with turn := 1 - g.turn }
  let g2 := if oldrow ≠ 0 then move g1 newrow newcol oldrow oldcol else g1
  (n, g2)

/-- `random.choice(l)` resolved by an arbitrary `pick`; `none` models the
`IndexError` raised on an empty list. -/
def randomChoice (l : List α) (pick : Nat) : Option α :=
  l.get? (pick % l.length)

/-- A move candidate `(row, col, newrow, newcol)`. -/
abbrev Mv := Int × Int × Int × Int

/-- The jump-candidate collection of `take_computer_turn_smarter` (lines
363-368): all `(row, col, newrow, newcol)` jump moves of the current
player, in board scan order. -/
def jumpMoveList (g : Game) : List Mv :=
  (List.range 8).foldl (fun acc row => (List.range 8).foldl (fun acc2 col =>
    if (bGet g.board (row : Int) (col : Int)).player = some g.turn then
      acc2 ++ ((piece_can_jump_list g (row : Int) (col : Int)).map
        (fun nn => ((row : Int), (col : Int), nn.1, nn.2)))
    else acc2) acc) []

/-- Accumulator of the simple-move scoring loop of
`take_computer_turn_smarter` (lines 391-410).  The game is threaded through
because each `jumpable_pieces` call mutates and reverts the board in place. -/
structure SelState where
  g : Game
  moveList : List Mv
  bestMoveList : List Mv
  bestMoveValue : Nat
  kingMeList : List Mv
deriving Repr

/-- Body of the scoring loop for one square `(row, col)`. -/
def selStep (s : SelState) (row col : Int) : SelState :=
  if (bGet s.g.board row col).player = some s.g.turn then
    (piece_can_move_list s.g row col).foldl (fun s1 nn =>
      let m : Mv := (row, col, nn.1, nn.2)
      let s2 := { s1 with moveList := s1.moveList ++ [m] }
      if (bGet s2.g.board row col).isKing = true ∨
          ¬ (row + direction s2.g.turn = 0 ∨ row + direction s2.g.turn = 7) then
        let vg := jumpable_pieces s2.g row col nn.1 nn.2
        if vg.1 < s2.bestMoveValue then
          { s2 with g := vg.2, bestMoveList := [m], bestMoveValue := vg.1 }
        else if vg.1 = s2.bestMoveValue then
          { s2 with g := vg.2, bestMoveList := s2.bestMoveList ++ [m] }
        else { s2 with g := vg.2 }
      else { s2 with kingMeList := s2.kingMeList ++ [m] }) s
  else s

/-- The full simple-move scoring scan (lines 391-410). -/
def selScan (g : Game) : SelState :=
  (List.range 8).foldl (fun s row => (List.range 8).foldl (fun s1 col =>
    selStep s1 (row : Int) (col : Int)) s)
    ⟨g, [], [], 99, []⟩

/-- `endPiecesList` (line 411): members of `moveList` whose *source* square
holds a non-king piece on row 0 or row 7. -/
def endPiecesOf (s : SelState) : List Mv :=
  s.moveList.filter fun m =>
    !(bGet s.g.board m.1 m.2.1).isKing && decide (m.1 = 0 ∨ m.1 = 7)

/-- `endPiecesList` as computed by a computer simple-move turn on `g`. -/
def computerEndPiecesList (g : Game) : List Mv := endPiecesOf (selScan g)

/-- `bestMoveList` as computed by a computer simple-move turn on `g`. -/
def computerBestMoveList (g : Game) : List Mv := (selScan g).bestMoveList

/-- `goodMoveList` (line 413). -/
def computerGoodMoveList (g : Game) : List Mv :=
  (selScan g).bestMoveList.filter fun m => decide (m ∉ computerEndPiecesList g)

/-- The jump chosen in the jump branch of `take_computer_turn_smarter`
(lines 359-377), resolved by `pick`. -/
def computerChosenJump (g : Game) (pick : Nat) : Option Mv :=
  if g.jumpInProgress = false then
    let moveList := jumpMoveList g
    let kingMeList := moveList.filter fun m =>
      !(bGet g.board m.1 m.2.1).isKing &&
      decide (m.1 + 2 * direction g.turn = 0 ∨ m.1 + 2 * direction g.turn = 7)
    if 0 < kingMeList.length then randomChoice kingMeList pick
    else randomChoice moveList pick
  else
    match g.pieceSelected with
    | some rc => (randomChoice (piece_can_jump_list g rc.1 rc.2) pick).map
        (fun nn => (rc.1, rc.2, nn.1, nn.2))
    | none => none

/-- `CheckersGame.take_computer_turn_smarter`, one invocation (one jump step
or one simple move), with `random.choice` resolved by `pick`.  `none` models
a Python exception (choice from an empty list, or unpacking `None`). -/
def take_computer_turn_smarter (g : Game) (pick : Nat) : Option Game :=
  if player_can_jump g = true then
    match computerChosenJump g pick with
    | none => none
    | some m =>
      let isK := (bGet g.board m.1 m.2.1).isKing
      let g2 := jump g m.1 m.2.1 m.2.2.1 m.2.2.2
      let newKing := (bGet g2.board m.2.2.1 m.2.2.2).isKing
      if piece_can_jump g2 m.2.2.1 m.2.2.2 && (isK || !newKing) then
        some { g2 with jumpInProgress := true,
                       pieceSelected := some (m.2.2.1, m.2.2.2) }
      else some (next_turn g2)
  else
    let s := selScan g
    let endPieces := endPiecesOf s
    let goodMoveList := s.bestMoveList.filter fun m => decide (m ∉ endPieces)
    let chosen := if 0 < s.kingMeList.length then randomChoice s.kingMeList pick
      else if 0 < goodMoveList.length then randomChoice goodMoveList pick
      else randomChoice s.bestMoveList pick
    match chosen with
    | none => none
    | some m => some (next_turn (move s.g m.1 m.2.1 m.2.2.1 m.2.2.2))

/-- `CheckersGame.on_click`, given the coordinates of the clicked square. -/
def on_click (g : Game) (row col : Int) : Game :=
  let g1 :=
    if (bGet g.board row col).player = some g.turn ∧ g.jumpInProgress = false then
      { g with pieceSelected := some (row, col) }
    else
      match g.pieceSelected with
      | some rc =>
        if (bGet g.board row col).player = none then
          let currentRow := rc.1
          let currentCol := rc.2
          let isK := (bGet g.board currentRow currentCol).isKing
          let d := direction g.turn
          if (row - currentRow = d ∨ (isK = true ∧ row - currentRow = -d)) ∧
              (col - currentCol).natAbs = 1 then
            if player_can_jump g = true then { g with message := "Must jump!" }
            else next_turn (move g currentRow currentCol row col)
          else if (row - currentRow = 2*d ∨
              (isK = true ∧ row - currentRow = -(2*d))) ∧
              (col - currentCol).natAbs = 2 then
            let jumpedRow := (row + currentRow) / 2
            let jumpedCol := (col + currentCol) / 2
            if (bGet g.board jumpedRow jumpedCol).player = some (1 - g.turn) then
              let g2 := jump g currentRow currentCol row col
              let newKing := (bGet g2.board row col).isKing
              if piece_can_jump g2 row col = true ∧ (isK = true ∨ newKing = false) then
                { g2 with jumpInProgress := true, pieceSelected := some (row, col) }
              else next_turn g2
            else g
          else g
        else if g.jumpInProgress = false then { g with pieceSelected := none }
        else g
      | none =>
        if g.jumpInProgress = false then { g with pieceSelected := none }
        else g
  if g1.jumpInProgress = true then { g1 with message := "Must continue jump!" }
  else g1

/-- A click event: it reaches `on_click` only for a bound playable square
(squares with `(r+c)` odd are bound at construction; `no_click` unbinds all
squares when the game ends). -/
def clickStep (g : Game) (r c : Int) : Game :=
  if g.squaresBound = true ∧ 0 ≤ r ∧ r < 8 ∧ 0 ≤ c ∧ c < 8 ∧ (r + c) % 2 = 1 then
    on_click g r c
  else g

def emptyRow : List Square := List.replicate 8 emptySquare

def emptyBoard : Board := List.replicate 8 emptyRow

/-- Place the four starting pieces of player `p` on row `row`
(`square = (row, 2*index + ((row+1) % 2))`). -/
def placeStartRow (b : Board) (p : Nat) (row : Nat) : Board :=
  (List.range 4).foldl (fun b2 i =>
    setChecker b2 (row : Int) ((2 * i + ((row + 1) % 2) : Nat) : Int) p false) b

/-- The standard initial placement made in `CheckersGame.__init__`. -/
def initialBoard : Board :=
  let b1 := (List.range 3).foldl (fun b row => placeStartRow b 1 row) emptyBoard
  (List.range 3).foldl (fun b i => placeStartRow b 0 (5 + i)) b1

/-- `CheckersGame.__init__`: sets `turn = 1`, places the pieces, then plays
the first `next_turn()`. -/
def newGame (computerPlayer : Int) : Game :=
  next_turn { board := initialBoard, turn := 1, pieceSelected := none,
              jumpInProgress := false, computerPlayer := computerPlayer,
              message := "", squaresBound := true }

/-- One observable transition of the running program: a click on a bound
playable square, or the scheduled computer-turn callback firing while it is
the computer player's turn. -/
inductive Step : Game → Game → Prop
  | click (g : Game) (r c : Int) :
      g.squaresBound = true → 0 ≤ r → r < 8 → 0 ≤ c → c < 8 →
      (r + c) % 2 = 1 → Step g (on_click g r c)
  | computer (g : Game) (pick : Nat) (g2 : Game) :
      (g.turn : Int) = g.computerPlayer →
      take_computer_turn_smarter g pick = some g2 → Step g g2

/-- States reachable in a game against the computer playing white. -/
def Reachable (g : Game) : Prop :=
  Relation.ReflTransGen Step (newGame 1) g

/-! ### Supporting lemmas about list updates and the board -/

theorem getD_set_self {α : Type} (l : List α) (i : Nat) (x d : α)
    (h : i < l.length) : (l.set i x).getD i d = x := by
  induction l generalizing i with
  | nil => simp at h
  | cons a t ih =>
    cases i with
    | zero => simp
    | succ n =>
      simp only [List.set_cons_succ, List.getD_cons_succ]
      exact ih n (by simpa using h)

theorem getD_set_ne {α : Type} (l : List α) (i j : Nat) (x d : α)
    (h : i ≠ j) : (l.set i x).getD j d = l.getD j d := by
  induction l generalizing i j with
  | nil => simp
  | cons a t ih =>
    cases i with
    | zero =>
      cases j with
      | zero => exact absurd rfl h
      | succ m => simp
    | succ n =>
      cases j with
      | zero => simp
      | succ m =>
        simp only [List.set_cons_succ, List.getD_cons_succ]
        exact ih n m (by omega)

theorem sum_map_set_add {α : Type} (f : α → Nat) (l : List α) (i : Nat)
    (x : α) (h : i < l.length) :
    ((l.set i x).map f).sum + f (l.get ⟨i, h⟩) = (l.map f).sum + f x := by
  induction l generalizing i with
  | nil => simp at h
  | cons a t ih =>
    cases i with
    | zero => simp [Nat.add_comm, Nat.add_left_comm]
    | succ n =>
      have hn : n < t.length := by simpa using h
      simp only [List.set_cons_succ, List.map_cons, List.sum_cons, List.get_cons_succ]
      have := ih n hn
      omega

theorem countP_eq_sum_map {α : Type} (q : α → Bool) (l : List α) :
    l.countP q = (l.map fun a => if q a then 1 else 0).sum := by
  induction l with
  | nil => simp
  | cons a t ih =>
    by_cases h : q a <;> simp [List.countP_cons, h, ih, Nat.add_comm]

theorem length_row_of_wf {b : Board} (hwf : boardWF b) {i : Nat} (hi : i < 8) :
    (b.getD i []).length = 8 := by
  have hlt : i < b.length := by rw [hwf.1]; omega
  have hgd : b.getD i [] = b[i] := List.getD_eq_getElem b [] hlt
  rw [hgd]
  exact hwf.2 _ (List.getElem_mem hlt)

theorem boardWF_bSet {b : Board} (hwf : boardWF b) (r c : Int) (s : Square) :
    boardWF (bSet b r c s) := by
  unfold bSet
  by_cases hcond : 0 ≤ r ∧ r < 8 ∧ 0 ≤ c ∧ c < 8
  · rw [if_pos hcond]
    refine ⟨by simpa using hwf.1, ?_⟩
    intro row hrow
    rcases List.mem_or_eq_of_mem_set hrow with h | h
    · exact hwf.2 row h
    · subst h
      rw [List.length_set]
      exact length_row_of_wf hwf (by omega)
  · rw [if_neg hcond]; exact hwf

theorem bGet_bSet_same {b : Board} (hwf : boardWF b) {r c : Int}
    (hr0 : 0 ≤ r) (hr8 : r < 8) (hc0 : 0 ≤ c) (hc8 : c < 8) (s : Square) :
    bGet (bSet b r c s) r c = s := by
  have hcond : 0 ≤ r ∧ r < 8 ∧ 0 ≤ c ∧ c < 8 := ⟨hr0, hr8, hc0, hc8⟩
  have hrN : r.toNat < b.length := by rw [hwf.1]; omega
  have hcN : c.toNat < (b.getD r.toNat []).length := by
    rw [length_row_of_wf hwf (by omega : r.toNat < 8)]; omega
  unfold bGet bSet
  rw [if_pos hcond, if_pos hcond, getD_set_self _ _ _ _ hrN,
    getD_set_self _ _ _ _ hcN]

theorem bGet_bSet_ne {b : Board} (hwf : boardWF b) {r c r2 c2 : Int}
    (s : Square) (hne : r ≠ r2 ∨ c ≠ c2) :
    bGet (bSet b r c s) r2 c2 = bGet b r2 c2 := by
  by_cases hin : 0 ≤ r ∧ r < 8 ∧ 0 ≤ c ∧ c < 8
  · by_cases hin2 : 0 ≤ r2 ∧ r2 < 8 ∧ 0 ≤ c2 ∧ c2 < 8
    · unfold bGet bSet
      rw [if_pos hin, if_pos hin2, if_pos hin2]
      by_cases hrr : r.toNat = r2.toNat
      · have hreq : r = r2 := by omega
        have hcne : c ≠ c2 := by tauto
        have hcN : c.toNat ≠ c2.toNat := by omega
        have hrN : r.toNat < b.length := by rw [hwf.1]; omega
        rw [← hrr, getD_set_self _ _ _ _ hrN, getD_set_ne _ _ _ _ _ hcN]
      · rw [getD_set_ne _ _ _ _ _ hrr]
    · unfold bGet bSet
      rw [if_pos hin, if_neg hin2, if_neg hin2]
  · unfold bSet
    rw [if_neg hin]

theorem bGet_clearChecker_ne {b : Board} (hwf : boardWF b) {r c r2 c2 : Int}
    (hne : r ≠ r2 ∨ c ≠ c2) :
    bGet (clearChecker b r c) r2 c2 = bGet b r2 c2 :=
  bGet_bSet_ne hwf _ hne

/-- Number of pieces of player `p` on the board. -/
def countPieces (b : Board) (p : Nat) : Nat :=
  (b.map fun row => row.countP fun sq => sq.player == some p).sum

theorem countPieces_bSet {b : Board} (hwf : boardWF b) {r c : Int}
    (hr0 : 0 ≤ r) (hr8 : r < 8) (hc0 : 0 ≤ c) (hc8 : c < 8) (s : Square)
    (p : Nat) :
    countPieces (bSet b r c s) p +
      (if (bGet b r c).player = some p then 1 else 0)
    = countPieces b p + (if s.player = some p then 1 else 0) := by
  have hcond : 0 ≤ r ∧ r < 8 ∧ 0 ≤ c ∧ c < 8 := ⟨hr0, hr8, hc0, hc8⟩
  have hrN : r.toNat < b.length := by rw [hwf.1]; omega
  have hcN : c.toNat < (b.getD r.toNat []).length := by
    rw [length_row_of_wf hwf (by omega : r.toNat < 8)]; omega
  have hrowget : b.get ⟨r.toNat, hrN⟩ = b.getD r.toNat [] := by
    rw [List.getD_eq_getElem _ _ hrN]; rfl
  have hsqget : (b.getD r.toNat []).get ⟨c.toNat, hcN⟩
      = (b.getD r.toNat []).getD c.toNat emptySquare := by
    rw [List.getD_eq_getElem _ _ hcN]; rfl
  unfold countPieces bSet bGet
  rw [if_pos hcond, if_pos hcond]
  have hboard := sum_map_set_add (fun row => row.countP fun sq => sq.player == some p)
    b r.toNat ((b.getD r.toNat []).set c.toNat s) hrN
  have hrow := sum_map_set_add (fun sq => if (sq.player == some p) = true then 1 else 0)
    (b.getD r.toNat []) c.toNat s hcN
  rw [hrowget] at hboard
  rw [← countP_eq_sum_map, ← countP_eq_sum_map] at hrow
  rw [hsqget] at hrow
  by_cases h1 : ((b.getD r.toNat []).getD c.toNat emptySquare).player = some p
  · rw [if_pos h1]
    rw [if_pos (by simpa using h1)] at hrow
    by_cases h2 : s.player = some p
    · rw [if_pos h2]
      rw [if_pos (by simpa using h2)] at hrow
      omega
    · rw [if_neg h2]
      rw [if_neg (by simpa using h2)] at hrow
      omega
  · rw [if_neg h1]
    rw [if_neg (by simpa using h1)] at hrow
    by_cases h2 : s.player = some p
    · rw [if_pos h2]
      rw [if_pos (by simpa using h2)] at hrow
      omega
    · rw [if_neg h2]
      rw [if_neg (by simpa using h2)] at hrow
      omega

theorem next_turn_jumpInProgress (g : Game) :
    (next_turn g).jumpInProgress = false := by
  unfold next_turn advanceFlip
  dsimp only
  split <;> rfl

theorem move_turn (g : Game) (a b c d : Int) : (move g a b c d).turn = g.turn := rfl

theorem move_board (g : Game) (a b c d : Int) :
    (move g a b c d).board = moveBoard g.board g.turn a b c d := rfl

/-! ### Claim C1: promotion row -/

/-- A game with a single red (player 0) man on square (1,2); red to move. -/
def gC1 : Game :=
  ⟨bSet emptyBoard 1 2 ⟨some 0, false⟩, 0, none, false, -1, "", true⟩

/-- C1 counterexample: player 0's non-king piece executes the legal forward
simple move (1,2) → (0,1); it lands on row 0 — not row 7 — and *is*
promoted, contradicting the claim that player 0 promotes exactly on row 7. -/
theorem promotion_row_counterexample :
    gC1.turn = 0 ∧ (bGet gC1.board 1 2).player = some 0 ∧
    (bGet gC1.board 1 2).isKing = false ∧
    (bGet gC1.board 0 1).player = none ∧
    ((0 : Int) - 1 = direction gC1.turn) ∧
    (bGet (move gC1 1 2 0 1).board 0 1).isKing = true ∧ (0 : Int) ≠ 7 := by
  decide

/-- Reading the landing square of a `moveBoard`: the moved piece belongs to
the mover, with the king flag of the source promoted on row `7 * turn`. -/
theorem bGet_moveBoard_same {b : Board} (hwf : boardWF b) (turn : Nat)
    (oldr oldc : Int) {newr newc : Int}
    (hrn0 : 0 ≤ newr) (hrn8 : newr < 8) (hcn0 : 0 ≤ newc) (hcn8 : newc < 8) :
    bGet (moveBoard b turn oldr oldc newr newc) newr newc
      = ⟨some turn,
          if newr = 7 * (turn : Int) then true else (bGet b oldr oldc).isKing⟩ := by
  simp only [moveBoard, setChecker]
  exact bGet_bSet_same (boardWF_bSet hwf _ _ _) hrn0 hrn8 hcn0 hcn8 _

/-- C1 amended: `move` (and hence `jump`) relocates the piece as the current
player's piece, promoted exactly when the landing row equals `7 * turn`
(row 0 for player 0, row 7 for player 1); a king stays a king. -/
theorem move_promotion (b : Board) (turn : Nat) (oldr oldc newr newc : Int)
    (hwf : boardWF b)
    (hrn0 : 0 ≤ newr) (hrn8 : newr < 8) (hcn0 : 0 ≤ newc) (hcn8 : newc < 8) :
    bGet (moveBoard b turn oldr oldc newr newc) newr newc
      = ⟨some turn, (bGet b oldr oldc).isKing || decide (newr = 7 * (turn : Int))⟩
    ∧ ((bGet b oldr oldc).isKing = true →
        (bGet (moveBoard b turn oldr oldc newr newc) newr newc).isKing = true)
    ∧ ((newr - oldr = 2 ∨ newr - oldr = -2) →
        bGet (jumpBoard b turn oldr oldc newr newc) newr newc
          = ⟨some turn,
              (bGet b oldr oldc).isKing || decide (newr = 7 * (turn : Int))⟩) := by
  have hwf1 : boardWF (clearChecker b oldr oldc) := boardWF_bSet hwf _ _ _
  have hflag : (if newr = 7 * (turn : Int) then true else (bGet b oldr oldc).isKing)
      = ((bGet b oldr oldc).isKing || decide (newr = 7 * (turn : Int))) := by
    by_cases h : newr = 7 * (turn : Int) <;> simp [h]
  have hmain : bGet (moveBoard b turn oldr oldc newr newc) newr newc
      = ⟨some turn, (bGet b oldr oldc).isKing || decide (newr = 7 * (turn : Int))⟩ := by
    rw [bGet_moveBoard_same hwf turn oldr oldc hrn0 hrn8 hcn0 hcn8, hflag]
  refine ⟨hmain, ?_, ?_⟩
  · intro hk
    rw [hmain, hk]
    rfl
  · intro hgeo
    have hwf2 : boardWF (moveBoard b turn oldr oldc newr newc) :=
      boardWF_bSet hwf1 _ _ _
    have hmidne : (oldr + newr) / 2 ≠ newr := by
      rcases hgeo with h | h <;> omega
    unfold jumpBoard
    rw [bGet_clearChecker_ne hwf2 (Or.inl hmidne)]
    exact hmain

/-! ### Claim C2: which player moves first -/

/-- C2 counterexample: after construction the player to move is not
player 1. -/
theorem first_player_counterexample : (newGame 1).turn ≠ 1 := by decide

/-- C2 amended: the constructor sets `turn = 1` but ends by calling
`next_turn()`, so after `newGame` completes the player to move is player 0
(red), for any computer-player setting. -/
theorem newGame_player0_first (cp : Int) : (newGame cp).turn = 0 := rfl

/-! ### Claim C4: board restoration by `jumpable_pieces` -/

/-- A game with a single white (player 1) man on (6,1); white to move. -/
def gC4 : Game :=
  ⟨bSet emptyBoard 6 1 ⟨some 1, false⟩, 1, none, false, -1, "", true⟩

/-- C4 counterexample: speculatively scoring the move (6,1) → (7,2) promotes
the man in flight; the revert keeps the king flag, so the occupied cell
(6,1) does not have its pre-call king status. -/
theorem jumpable_pieces_changes_board :
    (bGet gC4.board 6 1).player = some 1 ∧
    (bGet gC4.board 6 1).isKing = false ∧
    (bGet gC4.board 7 2).player = none ∧
    (bGet (jumpable_pieces gC4 6 1 7 2).2.board 6 1).isKing = true := by
  decide

/-- C4 amended: when the moved square holds a current-player piece, the
destination is empty, and no promotion fires on the way out or back (the
piece is a king, or neither `newrow` nor `oldrow` is the promotion row
`7 * turn`), `jumpable_pieces` restores the occupancy and owner of every
cell and the full contents of every occupied cell, and leaves the turn
unchanged.  (The king flag that `clear_checker` leaves behind on an *empty*
cell is the one observable residue.) -/
theorem jumpable_pieces_restoration (g : Game) (oldr oldc newr newc : Int)
    (hwf : boardWF g.board)
    (hro0 : 0 ≤ oldr) (hro8 : oldr < 8) (hco0 : 0 ≤ oldc) (hco8 : oldc < 8)
    (hrn0 : 0 ≤ newr) (hrn8 : newr < 8) (hcn0 : 0 ≤ newc) (hcn8 : newc < 8)
    (hold : (bGet g.board oldr oldc).player = some g.turn)
    (hnew : (bGet g.board newr newc).player = none)
    (hpromo : (bGet g.board oldr oldc).isKing = true ∨
        (newr ≠ 7 * (g.turn : Int) ∧ oldr ≠ 7 * (g.turn : Int))) :
    (∀ r c : Int,
        (bGet (jumpable_pieces g oldr oldc newr newc).2.board r c).player
          = (bGet g.board r c).player) ∧
    (∀ r c : Int, (bGet g.board r c).player ≠ none →
        bGet (jumpable_pieces g oldr oldc newr newc).2.board r c
          = bGet g.board r c) ∧
    (jumpable_pieces g oldr oldc newr newc).2.turn = g.turn := by
  by_cases h0 : oldr = 0
  · refine ⟨fun r c => ?_, fun r c h => ?_, ?_⟩ <;> simp [jumpable_pieces, h0]
  · have hK1 : (if newr = 7 * ((g.turn : Nat) : Int) then true
        else (bGet g.board oldr oldc).isKing) = (bGet g.board oldr oldc).isKing := by
      rcases hpromo with hk | ⟨hn, _⟩
      · rw [hk]; split <;> rfl
      · rw [if_neg hn]
    have hK2 : (if oldr = 7 * ((g.turn : Nat) : Int) then true
        else (bGet g.board oldr oldc).isKing) = (bGet g.board oldr oldc).isKing := by
      rcases hpromo with hk | ⟨_, ho⟩
      · rw [hk]; split <;> rfl
      · rw [if_neg ho]
    have hneon : oldr ≠ newr ∨ oldc ≠ newc := by
      by_contra h
      push_neg at h
      rw [h.1, h.2, hnew] at hold
      cases hold
    have hwf1 : boardWF (bSet g.board oldr oldc
        ⟨none, (bGet g.board oldr oldc).isKing⟩) := boardWF_bSet hwf _ _ _
    have hwf2 : boardWF (bSet (bSet g.board oldr oldc
        ⟨none, (bGet g.board oldr oldc).isKing⟩) newr newc
        ⟨some g.turn, (bGet g.board oldr oldc).isKing⟩) := boardWF_bSet hwf1 _ _ _
    have hb2 : (jumpable_pieces g oldr oldc newr newc).2.board
        = bSet (bSet (bSet (bSet g.board oldr oldc
            ⟨none, (bGet g.board oldr oldc).isKing⟩) newr newc
            ⟨some g.turn, (bGet g.board oldr oldc).isKing⟩) newr newc
            ⟨none, (bGet g.board oldr oldc).isKing⟩) oldr oldc
            ⟨some g.turn, (bGet g.board oldr oldc).isKing⟩ := by
      show (if oldr ≠ 0 then _ else _ : Game).board = _
      rw [if_pos h0, if_pos h0]
      simp only [move, moveBoard, clearChecker, setChecker]
      rw [hK1]
      rw [bGet_bSet_same hwf1 hrn0 hrn8 hcn0 hcn8]
      dsimp only
      rw [hK2]
    have hwf3 : boardWF (bSet (bSet (bSet g.board oldr oldc
        ⟨none, (bGet g.board oldr oldc).isKing⟩) newr newc
        ⟨some g.turn, (bGet g.board oldr oldc).isKing⟩) newr newc
        ⟨none, (bGet g.board oldr oldc).isKing⟩) := boardWF_bSet hwf2 _ _ _
    have hsqold : bGet g.board oldr oldc
        = ⟨some g.turn, (bGet g.board oldr oldc).isKing⟩ := by
      rw [← hold]
    have key : ∀ r c : Int, bGet (jumpable_pieces g oldr oldc newr newc).2.board r c
        = bGet g.board r c ∨
        ((r = newr ∧ c = newc) ∧
          bGet (jumpable_pieces g oldr oldc newr newc).2.board r c
            = ⟨none, (bGet g.board oldr oldc).isKing⟩ ∧
          (bGet g.board r c).player = none) := by
      intro r c
      by_cases hordc : r = oldr ∧ c = oldc
      · left
        rw [hb2, hordc.1, hordc.2,
          bGet_bSet_same hwf3 hro0 hro8 hco0 hco8 _, hsqold]
      · by_cases hnrdc : r = newr ∧ c = newc
        · right
          refine ⟨hnrdc, ?_, by rw [hnrdc.1, hnrdc.2]; exact hnew⟩
          have hne2 : oldr ≠ r ∨ oldc ≠ c := by
            rcases hneon with h | h
            · exact Or.inl (by rw [hnrdc.1]; exact h)
            · exact Or.inr (by rw [hnrdc.2]; exact h)
          rw [hb2, bGet_bSet_ne hwf3 _ hne2, hnrdc.1, hnrdc.2,
            bGet_bSet_same hwf2 hrn0 hrn8 hcn0 hcn8 _]
        · left
          have hne2 : oldr ≠ r ∨ oldc ≠ c := by
            rcases not_and_or.mp hordc with h | h
            · exact Or.inl (fun he => h he.symm)
            · exact Or.inr (fun he => h he.symm)
          have hne3 : newr ≠ r ∨ newc ≠ c := by
            rcases not_and_or.mp hnrdc with h | h
            · exact Or.inl (fun he => h he.symm)
            · exact Or.inr (fun he => h he.symm)
          rw [hb2, bGet_bSet_ne hwf3 _ hne2, bGet_bSet_ne hwf2 _ hne3,
            bGet_bSet_ne hwf1 _ hne3, bGet_bSet_ne hwf _ hne2]
    refine ⟨fun r c => ?_, fun r c h => ?_, ?_⟩
    · rcases key r c with h | ⟨_, hval, hnone⟩
      · rw [h]
      · rw [hval, hnone]
    · rcases key r c with heq | ⟨_, _, hnone⟩
      · exact heq
      · exact absurd hnone h
    · show (if oldr ≠ 0 then _ else _ : Game).turn = g.turn
      rw [if_pos h0, if_pos h0]
      rfl

/-! ### Claim C7: forced-jump rejection of simple moves -/

/-- C7 amended: with a piece selected, a click on an empty square in legal
simple-move geometry while the current player has a jump available leaves
the game unchanged — board, turn and selection included — except for the
status message, which ends as "Must jump!" when no multi-jump is in
progress and as "Must continue jump!" mid-multi-jump (the trailing handler
overwrites it). -/
theorem must_jump_rejection (g : Game) (r0 c0 row col : Int)
    (hsel : g.pieceSelected = some (r0, c0))
    (hempty : (bGet g.board row col).player = none)
    (hgeo : (row - r0 = direction g.turn ∨
        ((bGet g.board r0 c0).isKing = true ∧ row - r0 = -direction g.turn)) ∧
        (col - c0).natAbs = 1)
    (hjump : player_can_jump g = true) :
    on_click g row col = { g with message :=
      if g.jumpInProgress = true then "Must continue jump!" else "Must jump!" } := by
  unfold on_click
  rw [hsel]
  have hc1 : ¬((bGet g.board row col).player = some g.turn ∧
      g.jumpInProgress = false) := by
    rw [hempty]; simp
  rw [if_neg hc1]
  dsimp only
  rw [if_pos hempty, if_pos hgeo, if_pos hjump]
  by_cases hjp : g.jumpInProgress = true
  · rw [if_pos (show ({ g with message := "Must jump!" } : Game).jumpInProgress
        = true from hjp)]
    rw [if_pos hjp]
  · rw [if_neg (show ¬(({ g with message := "Must jump!" } : Game).jumpInProgress
        = true) from hjp)]
    rw [if_neg hjp]

/-- Mid-jump state used as the C7 counterexample: red (player 0) at (5,2)
is in progress of a multi-jump and can jump over white at (4,1). -/
def gMidJump : Game :=
  ⟨bSet (bSet emptyBoard 5 2 ⟨some 0, false⟩) 4 1 ⟨some 1, false⟩,
    0, some (5, 2), true, -1, "", true⟩

/-- C7 counterexample: a simple-move attempt (click on the empty square
(4,3), legal simple-move geometry) while a jump is mandatory, made
mid-multi-jump: the final status message is "Must continue jump!", not
"Must jump!" as the claim demands. -/
theorem must_jump_message_counterexample :
    gMidJump.pieceSelected = some (5, 2) ∧
    (bGet gMidJump.board 4 3).player = none ∧
    ((4 : Int) - 5 = direction gMidJump.turn ∧ ((3 : Int) - 2).natAbs = 1) ∧
    player_can_jump gMidJump = true ∧
    (on_click gMidJump 4 3).message = "Must continue jump!" ∧
    (on_click gMidJump 4 3).message ≠ "Must jump!" := by
  decide

/-! ### Claim C8: termination on a blocked player -/

/-- C8: if, after the turn flip, the player to move has neither a simple
move nor a jump, the game ends: the turn is restored to the previous player
(the winner), the win is announced, the squares are unbound, the board is
untouched, and every subsequent click is a no-op. -/
theorem no_move_game_over (g : Game)
    (hmove : player_can_move (advanceFlip g) = false)
    (hjump : player_can_jump (advanceFlip g) = false)
    (hturn : g.turn = 0 ∨ g.turn = 1) :
    (next_turn g).turn = g.turn ∧
    (next_turn g).message = colorTitle g.turn ++ " wins!" ∧
    (next_turn g).squaresBound = false ∧
    (next_turn g).board = g.board ∧
    ∀ r c : Int, clickStep (next_turn g) r c = next_turn g := by
  have hcond : ¬ player_can_move (advanceFlip g) = true ∧
      ¬ player_can_jump (advanceFlip g) = true := by
    constructor <;> simp [hmove, hjump]
  have hnt : next_turn g = { advanceFlip g with
      turn := 1 - (advanceFlip g).turn,
      message := colorTitle (1 - (advanceFlip g).turn) ++ " wins!",
      squaresBound := false } := by
    unfold next_turn
    dsimp only
    rw [if_pos hcond]
  have hturn2 : 1 - (advanceFlip g).turn = g.turn := by
    show 1 - (1 - g.turn) = g.turn
    rcases hturn with h | h <;> rw [h]
  have hsb : (next_turn g).squaresBound = false := by rw [hnt]
  refine ⟨?_, ?_, hsb, ?_, ?_⟩
  · rw [hnt]
    show 1 - (advanceFlip g).turn = g.turn
    exact hturn2
  · rw [hnt]
    show colorTitle (1 - (advanceFlip g).turn) ++ " wins!" = _
    rw [hturn2]
  · rw [hnt]
    rfl
  · intro r c
    have hnc : ¬((next_turn g).squaresBound = true ∧ 0 ≤ r ∧ r < 8 ∧ 0 ≤ c ∧
        c < 8 ∧ (r + c) % 2 = 1) := by
      intro hx
      rw [hsb] at hx
      simp at hx
    unfold clickStep
    rw [if_neg hnc]

/-- A position about to terminate: white just moved; red's only man (7,0)
is blocked by white men on (6,1) and (5,2). -/
def terminalPreBoard : Board :=
  setChecker (setChecker (setChecker emptyBoard 7 0 0 false) 6 1 1 false)
    5 2 1 false

def terminalPre : Game := ⟨terminalPreBoard, 1, none, false, 1, "", true⟩

/-- C8 witness at the concrete blocked position. -/
theorem no_move_game_over_witness :
    player_can_move (advanceFlip terminalPre) = false ∧
    player_can_jump (advanceFlip terminalPre) = false ∧
    (next_turn terminalPre).turn = terminalPre.turn ∧
    (next_turn terminalPre).message = colorTitle terminalPre.turn ++ " wins!" ∧
    (next_turn terminalPre).squaresBound = false ∧
    (next_turn terminalPre).board = terminalPre.board :=
  have h := no_move_game_over terminalPre (by decide) (by decide) (Or.inr rfl)
  ⟨by decide, by decide, h.1, h.2.1, h.2.2.1, h.2.2.2.1⟩

/-! ### Claim C9: the computer-turn callback on a finished game -/

/-- The finished game reached from `terminalPre` by `next_turn` (white has
won; squares are unbound). -/
def terminalGame : Game := next_turn terminalPre

set_option maxRecDepth 100000 in
set_option maxHeartbeats 2000000 in
/-- C9 failing input: `take_computer_turn_smarter` has no terminal-state
check.  Invoked on the finished game (with white the winner and the
computer player) it selects and executes a move for white, mutating the
board of a finished game instead of no-opping. -/
theorem computer_turn_mutates_finished_game :
    terminalGame.squaresBound = false ∧
    terminalGame.message = "White wins!" ∧
    (terminalGame.turn : Int) = terminalGame.computerPlayer ∧
    (take_computer_turn_smarter terminalGame 0).isSome = true ∧
    ((take_computer_turn_smarter terminalGame 0).getD terminalGame).board
      ≠ terminalGame.board := by
  decide

/-! ### Claim C10: piece counts under move and jump -/

/-- C10: any executed relocation of a current-player piece into an empty
square — in particular every simple move — conserves every player's piece
count; when additionally the relocation has jump geometry with an opponent
piece on the midpoint (an executed jump), the jump conserves the mover's
count and removes exactly one opponent piece (the jumped-over midpoint). -/
theorem piece_count_conservation (g : Game) (oldr oldc newr newc : Int)
    (hwf : boardWF g.board)
    (hro0 : 0 ≤ oldr) (hro8 : oldr < 8) (hco0 : 0 ≤ oldc) (hco8 : oldc < 8)
    (hrn0 : 0 ≤ newr) (hrn8 : newr < 8) (hcn0 : 0 ≤ newc) (hcn8 : newc < 8)
    (hold : (bGet g.board oldr oldc).player = some g.turn)
    (hnew : (bGet g.board newr newc).player = none)
    (hturn : g.turn = 0 ∨ g.turn = 1) :
    (∀ p, countPieces (moveBoard g.board g.turn oldr oldc newr newc) p
        = countPieces g.board p) ∧
    ((newr - oldr = 2 ∨ newr - oldr = -2) →
      (newc - oldc = 2 ∨ newc - oldc = -2) →
      (bGet g.board ((oldr + newr) / 2) ((oldc + newc) / 2)).player
          = some (1 - g.turn) →
      countPieces (jumpBoard g.board g.turn oldr oldc newr newc) g.turn
        = countPieces g.board g.turn ∧
      countPieces (jumpBoard g.board g.turn oldr oldc newr newc) (1 - g.turn) + 1
        = countPieces g.board (1 - g.turn)) := by
  have hneon : oldr ≠ newr ∨ oldc ≠ newc := by
    by_contra h
    push_neg at h
    rw [h.1, h.2, hnew] at hold
    cases hold
  have hwf1 : boardWF (clearChecker g.board oldr oldc) := boardWF_bSet hwf _ _ _
  have hclearnew : (bGet (clearChecker g.board oldr oldc) newr newc).player
      = none := by
    rw [bGet_clearChecker_ne hwf hneon]
    exact hnew
  have hwf2 : boardWF (moveBoard g.board g.turn oldr oldc newr newc) := by
    unfold moveBoard setChecker
    exact boardWF_bSet hwf1 _ _ _
  have hmovep : ∀ p, countPieces (moveBoard g.board g.turn oldr oldc newr newc) p
      = countPieces g.board p := by
    intro p
    have h1 := countPieces_bSet hwf hro0 hro8 hco0 hco8
      ⟨none, (bGet g.board oldr oldc).isKing⟩ p
    rw [hold] at h1
    have h2 := countPieces_bSet hwf1 hrn0 hrn8 hcn0 hcn8
      ⟨some g.turn, if newr = 7 * ((g.turn : Nat) : Int) then true
        else (bGet g.board oldr oldc).isKing⟩ p
    rw [hclearnew] at h2
    simp only [Option.some_inj, reduceCtorEq, if_false] at h1 h2
    have hcc : clearChecker g.board oldr oldc
        = bSet g.board oldr oldc ⟨none, (bGet g.board oldr oldc).isKing⟩ := rfl
    rw [hcc] at h2
    simp only [moveBoard, setChecker, hcc]
    by_cases hp : g.turn = p
    · simp only [if_pos hp] at h1 h2
      omega
    · simp only [if_neg hp] at h1 h2
      omega
  refine ⟨hmovep, ?_⟩
  intro hgr hgc hmid
  have hmr0 : 0 ≤ (oldr + newr) / 2 := by omega
  have hmr8 : (oldr + newr) / 2 < 8 := by omega
  have hmc0 : 0 ≤ (oldc + newc) / 2 := by omega
  have hmc8 : (oldc + newc) / 2 < 8 := by omega
  have hmro : (oldr + newr) / 2 ≠ oldr := by omega
  have hmrn : (oldr + newr) / 2 ≠ newr := by omega
  have hmidmove : (bGet (moveBoard g.board g.turn oldr oldc newr newc)
      ((oldr + newr) / 2) ((oldc + newc) / 2)).player = some (1 - g.turn) := by
    simp only [moveBoard, setChecker]
    rw [bGet_bSet_ne hwf1 _ (Or.inl (Ne.symm hmrn)),
      bGet_clearChecker_ne hwf (Or.inl (Ne.symm hmro))]
    exact hmid
  have hjumpmain : ∀ p, countPieces (jumpBoard g.board g.turn oldr oldc newr newc) p
      + (if (1 - g.turn : Nat) = p then 1 else 0)
      = countPieces (moveBoard g.board g.turn oldr oldc newr newc) p := by
    intro p
    have h3 := countPieces_bSet hwf2 hmr0 hmr8 hmc0 hmc8
      ⟨none, (bGet (moveBoard g.board g.turn oldr oldc newr newc)
        ((oldr + newr) / 2) ((oldc + newc) / 2)).isKing⟩ p
    rw [hmidmove] at h3
    simp only [Option.some_inj, reduceCtorEq, if_false] at h3
    have hcc2 : clearChecker (moveBoard g.board g.turn oldr oldc newr newc)
        ((oldr + newr) / 2) ((oldc + newc) / 2)
        = bSet (moveBoard g.board g.turn oldr oldc newr newc)
            ((oldr + newr) / 2) ((oldc + newc) / 2)
            ⟨none, (bGet (moveBoard g.board g.turn oldr oldc newr newc)
              ((oldr + newr) / 2) ((oldc + newc) / 2)).isKing⟩ := rfl
    simp only [jumpBoard, hcc2]
    by_cases hp : (1 - g.turn : Nat) = p
    · simp only [if_pos hp] at h3 ⊢
      omega
    · simp only [if_neg hp] at h3 ⊢
      omega
  constructor
  · have h := hjumpmain g.turn
    have hne : ¬((1 - g.turn : Nat) = g.turn) := by
      rcases hturn with ht | ht <;> rw [ht] <;> decide
    rw [if_neg hne] at h
    rw [← hmovep g.turn]
    omega
  · have h := hjumpmain (1 - g.turn)
    rw [if_pos rfl] at h
    rw [← hmovep (1 - g.turn)]
    omega

/-- A red man on (5,2) about to jump white on (4,1), landing on the empty
square (3,0); red to move. -/
def gJump : Game :=
  ⟨bSet (bSet emptyBoard 5 2 ⟨some 0, false⟩) 4 1 ⟨some 1, false⟩,
    0, none, false, -1, "", true⟩

/-- C10 witness at the concrete simple move (5,2) → (4,3) and at the
concrete jump (5,2) → (3,0) over (4,1). -/
theorem piece_count_conservation_witness :
    countPieces gJump.board 0 = 1 ∧ countPieces gJump.board 1 = 1 ∧
    countPieces (moveBoard gJump.board gJump.turn 5 2 4 3) 0
      = countPieces gJump.board 0 ∧
    countPieces (moveBoard gJump.board gJump.turn 5 2 4 3) 1
      = countPieces gJump.board 1 ∧
    countPieces (jumpBoard gJump.board gJump.turn 5 2 3 0) gJump.turn
      = countPieces gJump.board gJump.turn ∧
    countPieces (jumpBoard gJump.board gJump.turn 5 2 3 0) (1 - gJump.turn) + 1
      = countPieces gJump.board (1 - gJump.turn) :=
  have hs := piece_count_conservation gJump 5 2 4 3 (by decide) (by decide)
    (by decide) (by decide) (by decide) (by decide) (by decide) (by decide)
    (by decide) (by decide) (by decide) (Or.inl rfl)
  have hj := piece_count_conservation gJump 5 2 3 0 (by decide) (by decide)
    (by decide) (by decide) (by decide) (by decide) (by decide) (by decide)
    (by decide) (by decide) (by decide) (Or.inl rfl)
  have hjc := hj.2 (Or.inr (by decide)) (Or.inr (by decide)) (by decide)
  ⟨by decide, by decide, hs.1 0, hs.1 1, hjc.1, hjc.2⟩

/-! ### Claim C3: what `jumpable_pieces` counts -/

theorem foldl_count {β : Type} (q : β → Prop) [DecidablePred q] (l : List β)
    (n : Nat) :
    l.foldl (fun a x => if q x then a + 1 else a) n
      = n + (l.filter fun x => decide (q x)).length := by
  induction l generalizing n with
  | nil => simp
  | cons a t ih =>
    simp only [List.foldl_cons]
    by_cases h : q a
    · rw [if_pos h, ih, List.filter_cons_of_pos (by simpa using h)]
      simp only [List.length_cons]
      omega
    · rw [if_neg h, ih, List.filter_cons_of_neg (by simpa using h)]

theorem foldl_add_outer {β : Type} (f : β → Nat) (l : List β) (n : Nat) :
    l.foldl (fun a x => a + f x) n = n + (l.map f).sum := by
  induction l generalizing n with
  | nil => simp
  | cons a t ih =>
    simp only [List.foldl_cons, List.map_cons, List.sum_cons, ih]
    omega

/-- `countJumpable` counts exactly the squares holding a current-player
piece with a non-empty jump list. -/
theorem countJumpable_eq (g : Game) :
    countJumpable g = ((List.range 8).map fun row => ((List.range 8).filter
      fun col => decide ((bGet g.board (row : Int) (col : Int)).player
          = some g.turn ∧ piece_can_jump g (row : Int) (col : Int) = true)).length).sum := by
  unfold countJumpable
  simp only [foldl_count]
  rw [foldl_add_outer]
  simp

/-- Modelled from the spec: "counts how many of the *opponent's* pieces
would have a legal jump in that resulting position" — the number of squares
holding an opponent piece that has a legal jump under the opponent's rules
on the given position. -/
def specOpponentJumpCount (g : Game) : Nat :=
  ((List.range 8).map fun row => ((List.range 8).filter fun col =>
    decide ((bGet g.board (row : Int) (col : Int)).player = some (1 - g.turn) ∧
      piece_can_jump { g with turn := 1 - g.turn } (row : Int) (col : Int)
        = true)).length).sum

/-- C3 amended: when `oldrow ≠ 0`, `jumpable_pieces` returns the number of
opponent pieces with a legal jump in the position obtained by applying the
move. -/
theorem jumpable_pieces_counts_after (g : Game) (oldr oldc newr newc : Int)
    (h0 : oldr ≠ 0) :
    (jumpable_pieces g oldr oldc newr newc).1
      = specOpponentJumpCount (move g oldr oldc newr newc) := by
  show countJumpable { (if oldr ≠ 0 then move g oldr oldc newr newc else g) with
    turn := 1 - g.turn } = _
  rw [if_pos h0]
  rw [countJumpable_eq]
  simp only [specOpponentJumpCount, move_turn]

/-- The board used for the C3 counterexample: white (to move) on (0,1),
red on (2,3).  Moving (0,1) → (1,2) gives red a jump over (1,2) into the
vacated (0,1); in the unmodified position red has no jump. -/
def gC3 : Game :=
  ⟨bSet (bSet emptyBoard 0 1 ⟨some 1, false⟩) 2 3 ⟨some 0, false⟩,
    1, none, false, -1, "", true⟩

/-- C3 counterexample: with `oldrow = 0` the Python truthiness guard
`if oldrow:` skips the speculative move, so `jumpable_pieces` counts jumps
in the *unmodified* position (0 here) instead of the position after the
move (1 here). -/
theorem jumpable_pieces_truthiness_counterexample :
    (bGet gC3.board 0 1).player = some gC3.turn ∧
    (bGet gC3.board 1 2).player = none ∧
    (jumpable_pieces gC3 0 1 1 2).1 = 0 ∧
    specOpponentJumpCount (move gC3 0 1 1 2) = 1 := by
  decide

/-- C3 witness for the amended theorem, at a nonzero `oldrow`. -/
theorem jumpable_pieces_counts_after_witness :
    (jumpable_pieces gC3 2 3 1 2).1 = specOpponentJumpCount (move gC3 2 3 1 2) :=
  jumpable_pieces_counts_after gC3 2 3 1 2 (by decide)

/-- A white man on (5,2) about to jump red on (6,3), landing on (7,4). -/
def bC1w : Board :=
  bSet (bSet emptyBoard 5 2 ⟨some 1, false⟩) 6 3 ⟨some 0, false⟩

/-- As `bC1w` but with the white piece already a king. -/
def bC1k : Board :=
  bSet (bSet emptyBoard 5 2 ⟨some 1, true⟩) 6 3 ⟨some 0, false⟩

/-- C1 witness: the white man jumping (5,2) → (7,4) lands promoted (row 7
is player 1's promotion row), both under `moveBoard` and under `jumpBoard`;
a white king making the same jump stays a king. -/
theorem move_promotion_witness :
    bGet (moveBoard bC1w 1 5 2 7 4) 7 4
      = ⟨some 1, (bGet bC1w 5 2).isKing || decide ((7 : Int) = 7 * ((1 : Nat) : Int))⟩ ∧
    bGet (jumpBoard bC1w 1 5 2 7 4) 7 4
      = ⟨some 1, (bGet bC1w 5 2).isKing || decide ((7 : Int) = 7 * ((1 : Nat) : Int))⟩ ∧
    (bGet (moveBoard bC1k 1 5 2 7 4) 7 4).isKing = true :=
  have h := move_promotion bC1w 1 5 2 7 4 (by decide) (by decide) (by decide)
    (by decide) (by decide)
  have h2 := move_promotion bC1k 1 5 2 7 4 (by decide) (by decide) (by decide)
    (by decide) (by decide)
  ⟨h.1, h.2.2 (Or.inl (by decide)), h2.2.1 (by decide)⟩

/-- C4 witness: scoring the non-promoting move (6,1) → (5,2) on `gC4`
leaves the occupancy of every cell, the full contents of the occupied cell
(6,1), and the turn unchanged. -/
theorem jumpable_pieces_restoration_witness :
    (bGet (jumpable_pieces gC4 6 1 5 2).2.board 6 1).player
      = (bGet gC4.board 6 1).player ∧
    bGet (jumpable_pieces gC4 6 1 5 2).2.board 6 1 = bGet gC4.board 6 1 ∧
    (bGet (jumpable_pieces gC4 6 1 5 2).2.board 5 2).player
      = (bGet gC4.board 5 2).player ∧
    (jumpable_pieces gC4 6 1 5 2).2.turn = gC4.turn :=
  have h := jumpable_pieces_restoration gC4 6 1 5 2 (by decide) (by decide)
    (by decide) (by decide) (by decide) (by decide) (by decide) (by decide)
    (by decide) (by decide) (by decide) (Or.inr ⟨by decide, by decide⟩)
  ⟨h.1 6 1, h.2.1 6 1 (by decide), h.1 5 2, h.2.2⟩

/-- As `gMidJump` but with no multi-jump in progress: red has selected
(5,2) and a jump over (4,1) is available. -/
def gMustJump : Game :=
  ⟨bSet (bSet emptyBoard 5 2 ⟨some 0, false⟩) 4 1 ⟨some 1, false⟩,
    0, some (5, 2), false, -1, "", true⟩

/-- C7 witness, exercising both cases: outside a multi-jump the attempt
(5,2) → (4,3) is rejected with exactly the message "Must jump!"; the same
attempt mid-multi-jump ends with "Must continue jump!" and leaves the board
and turn untouched. -/
theorem must_jump_rejection_witness :
    on_click gMustJump 4 3 = { gMustJump with message := "Must jump!" } ∧
    on_click gMidJump 4 3 = { gMidJump with message := "Must continue jump!" } ∧
    (on_click gMidJump 4 3).board = gMidJump.board ∧
    (on_click gMidJump 4 3).turn = gMidJump.turn :=
  have h1 := must_jump_rejection gMustJump 5 2 4 3 (by decide) (by decide)
    ⟨Or.inl (by decide), by decide⟩ (by decide)
  have h2 := must_jump_rejection gMidJump 5 2 4 3 (by decide) (by decide)
    ⟨Or.inl (by decide), by decide⟩ (by decide)
  ⟨h1.trans (by decide), h2.trans (by decide), by rw [h2], by rw [h2]⟩

/-! ### Claim C6: a promoting jump ends the turn -/

/-- A forward jump landing on the mover's promotion row leaves a king on
the landing square. -/
theorem jump_lands_promoted (g : Game) (r0 c0 row col : Int)
    (hwf : boardWF g.board)
    (hr0 : 0 ≤ row) (hr8 : row < 8) (hc0 : 0 ≤ col) (hc8 : col < 8)
    (hgr : row - r0 = 2 * direction g.turn)
    (hpromo : row = 7 * ((g.turn : Nat) : Int)) :
    (bGet (jump g r0 c0 row col).board row col).isKing = true := by
  have hd : direction g.turn = -1 ∨ direction g.turn = 1 := by
    by_cases h : g.turn = 0 <;> simp [direction, h]
  have hmidne : (r0 + row) / 2 ≠ row := by
    rcases hd with h | h <;> rw [h] at hgr <;> omega
  have hwfc : boardWF (clearChecker g.board r0 c0) := boardWF_bSet hwf _ _ _
  have hwfm : boardWF (moveBoard g.board g.turn r0 c0 row col) :=
    boardWF_bSet hwfc row col _
  show (bGet (jumpBoard g.board g.turn r0 c0 row col) row col).isKing = true
  unfold jumpBoard
  rw [bGet_clearChecker_ne hwfm (Or.inl hmidne),
    bGet_moveBoard_same hwf g.turn r0 c0 hr0 hr8 hc0 hc8]
  show (if row = 7 * ((g.turn : Nat) : Int) then true
    else (bGet g.board r0 c0).isKing) = true
  rw [if_pos hpromo]

/-- C6: a jump of a previously non-king piece landing on the promotion row
never chains: on the human path `on_click` executes the jump and calls
`next_turn` (which clears `jumpInProgress`), and on the computer path
`take_computer_turn_smarter` does the same, even if the landed piece could
jump again. -/
theorem promoting_jump_ends_turn
    (g : Game) (r0 c0 row col : Int)
    (hwfH : boardWF g.board)
    (hr0w : 0 ≤ row) (hr8w : row < 8) (hc0w : 0 ≤ col) (hc8w : col < 8)
    (hsel : g.pieceSelected = some (r0, c0))
    (hempty : (bGet g.board row col).player = none)
    (hnk : (bGet g.board r0 c0).isKing = false)
    (hgr : row - r0 = 2 * direction g.turn)
    (hgc : (col - c0).natAbs = 2)
    (hmid : (bGet g.board ((row + r0) / 2) ((col + c0) / 2)).player
        = some (1 - g.turn))
    (hpromo : row = 7 * ((g.turn : Nat) : Int))
    (gc : Game) (pick : Nat) (r2 c2 nr nc : Int)
    (hwfC : boardWF gc.board)
    (hrn0 : 0 ≤ nr) (hrn8 : nr < 8) (hcn0 : 0 ≤ nc) (hcn8 : nc < 8)
    (hpj : player_can_jump gc = true)
    (hch : computerChosenJump gc pick = some (r2, c2, nr, nc))
    (hnkC : (bGet gc.board r2 c2).isKing = false)
    (hgrC : nr - r2 = 2 * direction gc.turn)
    (hpromoC : nr = 7 * ((gc.turn : Nat) : Int)) :
    on_click g row col = next_turn (jump g r0 c0 row col) ∧
    (next_turn (jump g r0 c0 row col)).jumpInProgress = false ∧
    take_computer_turn_smarter gc pick
      = some (next_turn (jump gc r2 c2 nr nc)) ∧
    (next_turn (jump gc r2 c2 nr nc)).jumpInProgress = false := by
  have hnewking := jump_lands_promoted g r0 c0 row col hwfH hr0w hr8w hc0w hc8w
    hgr hpromo
  have hnewkingC := jump_lands_promoted gc r2 c2 nr nc hwfC hrn0 hrn8 hcn0 hcn8
    hgrC hpromoC
  refine ⟨?_, next_turn_jumpInProgress _, ?_, next_turn_jumpInProgress _⟩
  · unfold on_click
    rw [hsel]
    have hc1 : ¬((bGet g.board row col).player = some g.turn ∧
        g.jumpInProgress = false) := by
      rw [hempty]; simp
    rw [if_neg hc1]
    dsimp only
    rw [if_pos hempty]
    have hng : ¬((row - r0 = direction g.turn ∨
        ((bGet g.board r0 c0).isKing = true ∧ row - r0 = -direction g.turn)) ∧
        (col - c0).natAbs = 1) := by
      intro hx
      omega
    rw [if_neg hng]
    have hjg : (row - r0 = 2 * direction g.turn ∨
        ((bGet g.board r0 c0).isKing = true ∧
          row - r0 = -(2 * direction g.turn))) ∧ (col - c0).natAbs = 2 :=
      ⟨Or.inl hgr, hgc⟩
    rw [if_pos hjg, if_pos hmid]
    have hcc : ¬(piece_can_jump (jump g r0 c0 row col) row col = true ∧
        ((bGet g.board r0 c0).isKing = true ∨
          (bGet (jump g r0 c0 row col).board row col).isKing = false)) := by
      intro hx
      rcases hx.2 with h | h
      · rw [hnk] at h; cases h
      · rw [hnewking] at h; cases h
    rw [if_neg hcc]
    rw [if_neg (show ¬((next_turn (jump g r0 c0 row col)).jumpInProgress = true) by
      rw [next_turn_jumpInProgress]; simp)]
  · unfold take_computer_turn_smarter
    rw [if_pos hpj, hch]
    dsimp only
    have hbool : (piece_can_jump (jump gc r2 c2 nr nc) nr nc &&
        ((bGet gc.board r2 c2).isKing ||
          !(bGet (jump gc r2 c2 nr nc).board nr nc).isKing)) = false := by
      rw [hnkC, hnewkingC]
      simp
    rw [if_neg (show ¬((piece_can_jump (jump gc r2 c2 nr nc) nr nc &&
        ((bGet gc.board r2 c2).isKing ||
          !(bGet (jump gc r2 c2 nr nc).board nr nc).isKing)) = true) by
      rw [hbool]; simp)]

/-- Human-path state for the C6 witness: red man on (2,3) selected, white
man on (1,2), landing square (0,1) empty — a promoting jump for red. -/
def gH6 : Game :=
  ⟨bSet (bSet emptyBoard 2 3 ⟨some 0, false⟩) 1 2 ⟨some 1, false⟩,
    0, some (2, 3), false, -1, "", true⟩

/-- Computer-path state for the C6 witness: white man on (5,2), red man on
(6,3), landing square (7,4) empty — a promoting jump for the computer. -/
def gCC6 : Game :=
  ⟨bSet (bSet emptyBoard 5 2 ⟨some 1, false⟩) 6 3 ⟨some 0, false⟩,
    1, none, false, 1, "", true⟩

/-- C6 witness at the two concrete promoting jumps. -/
theorem promoting_jump_ends_turn_witness :
    on_click gH6 0 1 = next_turn (jump gH6 2 3 0 1) ∧
    (next_turn (jump gH6 2 3 0 1)).jumpInProgress = false ∧
    take_computer_turn_smarter gCC6 0 = some (next_turn (jump gCC6 5 2 7 4)) ∧
    (next_turn (jump gCC6 5 2 7 4)).jumpInProgress = false :=
  promoting_jump_ends_turn gH6 2 3 0 1 (by decide) (by decide) (by decide)
    (by decide) (by decide) (by decide) (by decide) (by decide) (by decide)
    (by decide) (by decide) (by decide) gCC6 0 5 2 7 4 (by decide) (by decide)
    (by decide) (by decide) (by decide) (by decide) (by decide) (by decide)
    (by decide) (by decide)

/-! ### Claim C5: is `endPiecesList` dead logic?

A concrete game against the computer (playing white): red opens
(5,2) → (4,1); white answers (2,1) → (3,2); red plays (6,3) → (5,2); white
answers (1,2) → (2,1); red plays (7,2) → (6,3).  Each human move is two
clicks; each white move is a computer step whose `random.choice` pick is
resolved to a legal index. -/

def cs0 : Game := newGame 1

def cs1 : Game :=
  { board := [[{ player := none, isKing := false },
               { player := some 1, isKing := false },
               { player := none, isKing := false },
               { player := some 1, isKing := false },
               { player := none, isKing := false },
               { player := some 1, isKing := false },
               { player := none, isKing := false },
               { player := some 1, isKing := false }],
              [{ player := some 1, isKing := false },
               { player := none, isKing := false },
               { player := some 1, isKing := false },
               { player := none, isKing := false },
               { player := some 1, isKing := false },
               { player := none, isKing := false },
               { player := some 1, isKing := false },
               { player := none, isKing := false }],
              [{ player := none, isKing := false },
               { player := some 1, isKing := false },
               { player := none, isKing := false },
               { player := some 1, isKing := false },
               { player := none, isKing := false },
               { player := some 1, isKing := false },
               { player := none, isKing := false },
               { player := some 1, isKing := false }],
              [{ player := none, isKing := false },
               { player := none, isKing := false },
               { player := none, isKing := false },
               { player := none, isKing := false },
               { player := none, isKing := false },
               { player := none, isKing := false },
               { player := none, isKing := false },
               { player := none, isKing := false }],
              [{ player := none, isKing := false },
               { player := none, isKing := false },
               { player := none, isKing := false },
               { player := none, isKing := false },
               { player := none, isKing := false },
               { player := none, isKing := false },
               { player := none, isKing := false },
               { player := none, isKing := false }],
              [{ player := some 0, isKing := false },
               { player := none, isKing := false },
               { player := some 0, isKing := false },
               { player := none, isKing := false },
               { player := some 0, isKing := false },
               { player := none, isKing := false },
               { player := some 0, isKing := false },
               { player := none, isKing := false }],
              [{ player := none, isKing := false },
               { player := some 0, isKing := false },
               { player := none, isKing := false },
               { player := some 0, isKing := false },
               { player := none, isKing := false },
               { player := some 0, isKing := false },
               { player := none, isKing := false },
               { player := some 0, isKing := false }],
              [{ player := some 0, isKing := false },
               { player := none, isKing := false },
               { player := some 0, isKing := false },
               { player := none, isKing := false },
               { player := some 0, isKing := false },
               { player := none, isKing := false },
               { player := some 0, isKing := false },
               { player := none, isKing := false }]],
    turn := 0,
    pieceSelected := some (5, 2),
    jumpInProgress := false,
    computerPlayer := 1,
    message := "",
    squaresBound := true }

def cs2 : Game :=
  { board := [[{ player := none, isKing := false },
               { player := some 1, isKing := false },
               { player := none, isKing := false },
               { player := some 1, isKing := false },
               { player := none, isKing := false },
               { player := some 1, isKing := false },
               { player := none, isKing := false },
               { player := some 1, isKing := false }],
              [{ player := some 1, isKing := false },
               { player := none, isKing := false },
               { player := some 1, isKing := false },
               { player := none, isKing := false },
               { player := some 1, isKing := false },
               { player := none, isKing := false },
               { player := some 1, isKing := false },
               { player := none, isKing := false }],
              [{ player := none, isKing := false },
               { player := some 1, isKing := false },
               { player := none, isKing := false },
               { player := some 1, isKing := false },
               { player := none, isKing := false },
               { player := some 1, isKing := false },
               { player := none, isKing := false },
               { player := some 1, isKing := false }],
              [{ player := none, isKing := false },
               { player := none, isKing := false },
               { player := none, isKing := false },
               { player := none, isKing := false },
               { player := none, isKing := false },
               { player := none, isKing := false },
               { player := none, isKing := false },
               { player := none, isKing := false }],
              [{ player := none, isKing := false },
               { player := some 0, isKing := false },
               { player := none, isKing := false },
               { player := none, isKing := false },
               { player := none, isKing := false },
               { player := none, isKing := false },
               { player := none, isKing := false },
               { player := none, isKing := false }],
              [{ player := some 0, isKing := false },
               { player := none, isKing := false },
               { player := none, isKing := false },
               { player := none, isKing := false },
               { player := some 0, isKing := false },
               { player := none, isKing := false },
               { player := some 0, isKing := false },
               { player := none, isKing := false }],
              [{ player := none, isKing := false },
               { player := some 0, isKing := false },
               { player := none, isKing := false },
               { player := some 0, isKing := false },
               { player := none, isKing := false },
               { player := some 0, isKing := false },
               { player := none, isKing := false },
               { player := some 0, isKing := false }],
              [{ player := some 0, isKing := false },
               { player := none, isKing := false },
               { player := some 0, isKing := false },
               { player := none, isKing := false },
               { player := some 0, isKing := false },
               { player := none, isKing := false },
               { player := some 0, isKing := false },
               { player := none, isKing := false }]],
    turn := 1,
    pieceSelected := none,
    jumpInProgress := false,
    computerPlayer := 1,
    message := "",
    squaresBound := true }

def cs3 : Game :=
  { board := [[{ player := none, isKing := false },
               { player := some 1, isKing := false },
               { player := none, isKing := false },
               { player := some 1, isKing := false },
               { player := none, isKing := false },
               { player := some 1, isKing := false },
               { player := none, isKing := false },
               { player := some 1, isKing := false }],
              [{ player := some 1, isKing := false },
               { player := none, isKing := false },
               { player := some 1, isKing := false },
               { player := none, isKing := false },
               { player := some 1, isKing := false },
               { player := none, isKing := false },
               { player := some 1, isKing := false },
               { player := none, isKing := false }],
              [{ player := none, isKing := false },
               { player := none, isKing := false },
               { player := none, isKing := false },
               { player := some 1, isKing := false },
               { player := none, isKing := false },
               { player := some 1, isKing := false },
               { player := none, isKing := false },
               { player := some 1, isKing := false }],
              [{ player := none, isKing := false },
               { player := none, isKing := false },
               { player := some 1, isKing := false },
               { player := none, isKing := false },
               { player := none, isKing := false },
               { player := none, isKing := false },
               { player := none, isKing := false },
               { player := none, isKing := false }],
              [{ player := none, isKing := false },
               { player := some 0, isKing := false },
               { player := none, isKing := false },
               { player := none, isKing := false },
               { player := none, isKing := false },
               { player := none, isKing := false },
               { player := none, isKing := false },
               { player := none, isKing := false }],
              [{ player := some 0, isKing := false },
               { player := none, isKing := false },
               { player := none, isKing := false },
               { player := none, isKing := false },
               { player := some 0, isKing := false },
               { player := none, isKing := false },
               { player := some 0, isKing := false },
               { player := none, isKing := false }],
              [{ player := none, isKing := false },
               { player := some 0, isKing := false },
               { player := none, isKing := false },
               { player := some 0, isKing := false },
               { player := none, isKing := false },
               { player := some 0, isKing := false },
               { player := none, isKing := false },
               { player := some 0, isKing := false }],
              [{ player := some 0, isKing := false },
               { player := none, isKing := false },
               { player := some 0, isKing := false },
               { player := none, isKing := false },
               { player := some 0, isKing := false },
               { player := none, isKing := false },
               { player := some 0, isKing := false },
               { player := none, isKing := false }]],
    turn := 0,
    pieceSelected := none,
    jumpInProgress := false,
    computerPlayer := 1,
    message := "",
    squaresBound := true }

def cs4 : Game :=
  { board := [[{ player := none, isKing := false },
               { player := some 1, isKing := false },
               { player := none, isKing := false },
               { player := some 1, isKing := false },
               { player := none, isKing := false },
               { player := some 1, isKing := false },
               { player := none, isKing := false },
               { player := some 1, isKing := false }],
              [{ player := some 1, isKing := false },
               { player := none, isKing := false },
               { player := some 1, isKing := false },
               { player := none, isKing := false },
               { player := some 1, isKing := false },
               { player := none, isKing := false },
               { player := some 1, isKing := false },
               { player := none, isKing := false }],
              [{ player := none, isKing := false },
               { player := none, isKing := false },
               { player := none, isKing := false },
               { player := some 1, isKing := false },
               { player := none, isKing := false },
               { player := some 1, isKing := false },
               { player := none, isKing := false },
               { player := some 1, isKing := false }],
              [{ player := none, isKing := false },
               { player := none, isKing := false },
               { player := some 1, isKing := false },
               { player := none, isKing := false },
               { player := none, isKing := false },
               { player := none, isKing := false },
               { player := none, isKing := false },
               { player := none, isKing := false }],
              [{ player := none, isKing := false },
               { player := some 0, isKing := false },
               { player := none, isKing := false },
               { player := none, isKing := false },
               { player := none, isKing := false },
               { player := none, isKing := false },
               { player := none, isKing := false },
               { player := none, isKing := false }],
              [{ player := some 0, isKing := false },
               { player := none, isKing := false },
               { player := none, isKing := false },
               { player := none, isKing := false },
               { player := some 0, isKing := false },
               { player := none, isKing := false },
               { player := some 0, isKing := false },
               { player := none, isKing := false }],
              [{ player := none, isKing := false },
               { player := some 0, isKing := false },
               { player := none, isKing := false },
               { player := some 0, isKing := false },
               { player := none, isKing := false },
               { player := some 0, isKing := false },
               { player := none, isKing := false },
               { player := some 0, isKing := false }],
              [{ player := some 0, isKing := false },
               { player := none, isKing := false },
               { player := some 0, isKing := false },
               { player := none, isKing := false },
               { player := some 0, isKing := false },
               { player := none, isKing := false },
               { player := some 0, isKing := false },
               { player := none, isKing := false }]],
    turn := 0,
    pieceSelected := some (6, 3),
    jumpInProgress := false,
    computerPlayer := 1,
    message := "",
    squaresBound := true }

def cs5 : Game :=
  { board := [[{ player := none, isKing := false },
               { player := some 1, isKing := false },
               { player := none, isKing := false },
               { player := some 1, isKing := false },
               { player := none, isKing := false },
               { player := some 1, isKing := false },
               { player := none, isKing := false },
               { player := some 1, isKing := false }],
              [{ player := some 1, isKing := false },
               { player := none, isKing := false },
               { player := some 1, isKing := false },
               { player := none, isKing := false },
               { player := some 1, isKing := false },
               { player := none, isKing := false },
               { player := some 1, isKing := false },
               { player := none, isKing := false }],
              [{ player := none, isKing := false },
               { player := none, isKing := false },
               { player := none, isKing := false },
               { player := some 1, isKing := false },
               { player := none, isKing := false },
               { player := some 1, isKing := false },
               { player := none, isKing := false },
               { player := some 1, isKing := false }],
              [{ player := none, isKing := false },
               { player := none, isKing := false },
               { player := some 1, isKing := false },
               { player := none, isKing := false },
               { player := none, isKing := false },
               { player := none, isKing := false },
               { player := none, isKing := false },
               { player := none, isKing := false }],
              [{ player := none, isKing := false },
               { player := some 0, isKing := false },
               { player := none, isKing := false },
               { player := none, isKing := false },
               { player := none, isKing := false },
               { player := none, isKing := false },
               { player := none, isKing := false },
               { player := none, isKing := false }],
              [{ player := some 0, isKing := false },
               { player := none, isKing := false },
               { player := some 0, isKing := false },
               { player := none, isKing := false },
               { player := some 0, isKing := false },
               { player := none, isKing := false },
               { player := some 0, isKing := false },
               { player := none, isKing := false }],
              [{ player := none, isKing := false },
               { player := some 0, isKing := false },
               { player := none, isKing := false },
               { player := none, isKing := false },
               { player := none, isKing := false },
               { player := some 0, isKing := false },
               { player := none, isKing := false },
               { player := some 0, isKing := false }],
              [{ player := some 0, isKing := false },
               { player := none, isKing := false },
               { player := some 0, isKing := false },
               { player := none, isKing := false },
               { player := some 0, isKing := false },
               { player := none, isKing := false },
               { player := some 0, isKing := false },
               { player := none, isKing := false }]],
    turn := 1,
    pieceSelected := none,
    jumpInProgress := false,
    computerPlayer := 1,
    message := "",
    squaresBound := true }

def cs6 : Game :=
  { board := [[{ player := none, isKing := false },
               { player := some 1, isKing := false },
               { player := none, isKing := false },
               { player := some 1, isKing := false },
               { player := none, isKing := false },
               { player := some 1, isKing := false },
               { player := none, isKing := false },
               { player := some 1, isKing := false }],
              [{ player := some 1, isKing := false },
               { player := none, isKing := false },
               { player := none, isKing := false },
               { player := none, isKing := false },
               { player := some 1, isKing := false },
               { player := none, isKing := false },
               { player := some 1, isKing := false },
               { player := none, isKing := false }],
              [{ player := none, isKing := false },
               { player := some 1, isKing := false },
               { player := none, isKing := false },
               { player := some 1, isKing := false },
               { player := none, isKing := false },
               { player := some 1, isKing := false },
               { player := none, isKing := false },
               { player := some 1, isKing := false }],
              [{ player := none, isKing := false },
               { player := none, isKing := false },
               { player := some 1, isKing := false },
               { player := none, isKing := false },
               { player := none, isKing := false },
               { player := none, isKing := false },
               { player := none, isKing := false },
               { player := none, isKing := false }],
              [{ player := none, isKing := false },
               { player := some 0, isKing := false },
               { player := none, isKing := false },
               { player := none, isKing := false },
               { player := none, isKing := false },
               { player := none, isKing := false },
               { player := none, isKing := false },
               { player := none, isKing := false }],
              [{ player := some 0, isKing := false },
               { player := none, isKing := false },
               { player := some 0, isKing := false },
               { player := none, isKing := false },
               { player := some 0, isKing := false },
               { player := none, isKing := false },
               { player := some 0, isKing := false },
               { player := none, isKing := false }],
              [{ player := none, isKing := false },
               { player := some 0, isKing := false },
               { player := none, isKing := false },
               { player := none, isKing := false },
               { player := none, isKing := false },
               { player := some 0, isKing := false },
               { player := none, isKing := false },
               { player := some 0, isKing := false }],
              [{ player := some 0, isKing := false },
               { player := none, isKing := false },
               { player := some 0, isKing := false },
               { player := none, isKing := false },
               { player := some 0, isKing := false },
               { player := none, isKing := false },
               { player := some 0, isKing := false },
               { player := none, isKing := false }]],
    turn := 0,
    pieceSelected := none,
    jumpInProgress := false,
    computerPlayer := 1,
    message := "",
    squaresBound := true }

def cs7 : Game :=
  { board := [[{ player := none, isKing := false },
               { player := some 1, isKing := false },
               { player := none, isKing := false },
               { player := some 1, isKing := false },
               { player := none, isKing := false },
               { player := some 1, isKing := false },
               { player := none, isKing := false },
               { player := some 1, isKing := false }],
              [{ player := some 1, isKing := false },
               { player := none, isKing := false },
               { player := none, isKing := false },
               { player := none, isKing := false },
               { player := some 1, isKing := false },
               { player := none, isKing := false },
               { player := some 1, isKing := false },
               { player := none, isKing := false }],
              [{ player := none, isKing := false },
               { player := some 1, isKing := false },
               { player := none, isKing := false },
               { player := some 1, isKing := false },
               { player := none, isKing := false },
               { player := some 1, isKing := false },
               { player := none, isKing := false },
               { player := some 1, isKing := false }],
              [{ player := none, isKing := false },
               { player := none, isKing := false },
               { player := some 1, isKing := false },
               { player := none, isKing := false },
               { player := none, isKing := false },
               { player := none, isKing := false },
               { player := none, isKing := false },
               { player := none, isKing := false }],
              [{ player := none, isKing := false },
               { player := some 0, isKing := false },
               { player := none, isKing := false },
               { player := none, isKing := false },
               { player := none, isKing := false },
               { player := none, isKing := false },
               { player := none, isKing := false },
               { player := none, isKing := false }],
              [{ player := some 0, isKing := false },
               { player := none, isKing := false },
               { player := some 0, isKing := false },
               { player := none, isKing := false },
               { player := some 0, isKing := false },
               { player := none, isKing := false },
               { player := some 0, isKing := false },
               { player := none, isKing := false }],
              [{ player := none, isKing := false },
               { player := some 0, isKing := false },
               { player := none, isKing := false },
               { player := none, isKing := false },
               { player := none, isKing := false },
               { player := some 0, isKing := false },
               { player := none, isKing := false },
               { player := some 0, isKing := false }],
              [{ player := some 0, isKing := false },
               { player := none, isKing := false },
               { player := some 0, isKing := false },
               { player := none, isKing := false },
               { player := some 0, isKing := false },
               { player := none, isKing := false },
               { player := some 0, isKing := false },
               { player := none, isKing := false }]],
    turn := 0,
    pieceSelected := some (7, 2),
    jumpInProgress := false,
    computerPlayer := 1,
    message := "",
    squaresBound := true }

def cs8 : Game :=
  { board := [[{ player := none, isKing := false },
               { player := some 1, isKing := false },
               { player := none, isKing := false },
               { player := some 1, isKing := false },
               { player := none, isKing := false },
               { player := some 1, isKing := false },
               { player := none, isKing := false },
               { player := some 1, isKing := false }],
              [{ player := some 1, isKing := false },
               { player := none, isKing := false },
               { player := none, isKing := false },
               { player := none, isKing := false },
               { player := some 1, isKing := false },
               { player := none, isKing := false },
               { player := some 1, isKing := false },
               { player := none, isKing := false }],
              [{ player := none, isKing := false },
               { player := some 1, isKing := false },
               { player := none, isKing := false },
               { player := some 1, isKing := false },
               { player := none, isKing := false },
               { player := some 1, isKing := false },
               { player := none, isKing := false },
               { player := some 1, isKing := false }],
              [{ player := none, isKing := false },
               { player := none, isKing := false },
               { player := some 1, isKing := false },
               { player := none, isKing := false },
               { player := none, isKing := false },
               { player := none, isKing := false },
               { player := none, isKing := false },
               { player := none, isKing := false }],
              [{ player := none, isKing := false },
               { player := some 0, isKing := false },
               { player := none, isKing := false },
               { player := none, isKing := false },
               { player := none, isKing := false },
               { player := none, isKing := false },
               { player := none, isKing := false },
               { player := none, isKing := false }],
              [{ player := some 0, isKing := false },
               { player := none, isKing := false },
               { player := some 0, isKing := false },
               { player := none, isKing := false },
               { player := some 0, isKing := false },
               { player := none, isKing := false },
               { player := some 0, isKing := false },
               { player := none, isKing := false }],
              [{ player := none, isKing := false },
               { player := some 0, isKing := false },
               { player := none, isKing := false },
               { player := some 0, isKing := false },
               { player := none, isKing := false },
               { player := some 0, isKing := false },
               { player := none, isKing := false },
               { player := some 0, isKing := false }],
              [{ player := some 0, isKing := false },
               { player := none, isKing := false },
               { player := none, isKing := false },
               { player := none, isKing := false },
               { player := some 0, isKing := false },
               { player := none, isKing := false },
               { player := some 0, isKing := false },
               { player := none, isKing := false }]],
    turn := 1,
    pieceSelected := none,
    jumpInProgress := false,
    computerPlayer := 1,
    message := "",
    squaresBound := true }

set_option maxRecDepth 100000 in
set_option maxHeartbeats 2000000 in
theorem reach_cs8 : Reachable cs8 := by
  have e1 : on_click cs0 5 2 = cs1 := by decide
  have e2 : on_click cs1 4 1 = cs2 := by decide
  have e4 : on_click cs3 6 3 = cs4 := by decide
  have e5 : on_click cs4 5 2 = cs5 := by decide
  have e7 : on_click cs6 7 2 = cs7 := by decide
  have e8 : on_click cs7 6 3 = cs8 := by decide
  have h1 : Step cs0 cs1 :=
    e1 ▸ Step.click cs0 5 2 (by decide) (by decide) (by decide) (by decide)
      (by decide) (by decide)
  have h2 : Step cs1 cs2 :=
    e2 ▸ Step.click cs1 4 1 (by decide) (by decide) (by decide) (by decide)
      (by decide) (by decide)
  have h3 : Step cs2 cs3 :=
    Step.computer cs2 0 cs3 (by decide) (by decide)
  have h4 : Step cs3 cs4 :=
    e4 ▸ Step.click cs3 6 3 (by decide) (by decide) (by decide) (by decide)
      (by decide) (by decide)
  have h5 : Step cs4 cs5 :=
    e5 ▸ Step.click cs4 5 2 (by decide) (by decide) (by decide) (by decide)
      (by decide) (by decide)
  have h6 : Step cs5 cs6 :=
    Step.computer cs5 1 cs6 (by decide) (by decide)
  have h7 : Step cs6 cs7 :=
    e7 ▸ Step.click cs6 7 2 (by decide) (by decide) (by decide) (by decide)
      (by decide) (by decide)
  have h8 : Step cs7 cs8 :=
    e8 ▸ Step.click cs7 6 3 (by decide) (by decide) (by decide) (by decide)
      (by decide) (by decide)
  exact Relation.ReflTransGen.tail (Relation.ReflTransGen.tail
    (Relation.ReflTransGen.tail (Relation.ReflTransGen.tail
    (Relation.ReflTransGen.tail (Relation.ReflTransGen.tail
    (Relation.ReflTransGen.tail (Relation.ReflTransGen.tail
    Relation.ReflTransGen.refl h1) h2) h3) h4) h5) h6) h7) h8

set_option maxRecDepth 100000 in
set_option maxHeartbeats 2000000 in
/-- C5 counterexample: in the reachable state `cs8` it is the computer's
turn, no jump is available (so the computer takes the simple-move branch),
and `endPiecesList` is *not* empty — it holds the two moves of white's
non-king back-row men (0,1) and (0,3) into (1,2). -/
theorem endPieces_nonempty_counterexample :
    Reachable cs8 ∧ ((cs8.turn : Nat) : Int) = cs8.computerPlayer ∧
    player_can_jump cs8 = false ∧
    computerEndPiecesList cs8 = [(0, 1, 1, 2), (0, 3, 1, 2)] ∧
    computerEndPiecesList cs8 ≠ [] :=
  ⟨reach_cs8, by decide, by decide, by decide, by decide⟩

set_option maxRecDepth 100000 in
set_option maxHeartbeats 2000000 in
/-- C5 amended: `endPiecesList` collects the current player's non-king
moves *originating* on row 0 or 7 (the player's own back row), not moves
landing there; in reachable computer simple-move states it can be
non-empty, and excluding its members then genuinely changes the set of
minimum-score candidate moves. -/
theorem endPieces_changes_candidates :
    Reachable cs8 ∧ ((cs8.turn : Nat) : Int) = cs8.computerPlayer ∧
    player_can_jump cs8 = false ∧
    computerEndPiecesList cs8
      = (selScan cs8).moveList.filter (fun m =>
          !(bGet (selScan cs8).g.board m.1 m.2.1).isKing &&
          decide (m.1 = 0 ∨ m.1 = 7)) ∧
    ((0 : Int), (1 : Int), (1 : Int), (2 : Int)) ∈ computerBestMoveList cs8 ∧
    ((0 : Int), (1 : Int), (1 : Int), (2 : Int)) ∉ computerGoodMoveList cs8 ∧
    computerGoodMoveList cs8 ≠ computerBestMoveList cs8 ∧
    computerGoodMoveList cs8 ≠ [] :=
  ⟨reach_cs8, by decide, by decide, rfl, by decide, by decide, by decide,
    by decide⟩

end Checkers
